import Mathlib

/-!
Shallow embedding of `src/script.js` (Trains-Finder), a single-page train
search front end, together with theorems verifying its specification.

The JavaScript string primitives used by the source (`String.prototype.split`,
`Number`, `trim`, `toUpperCase`, `includes`) are embedded as structurally
recursive functions on `List Char`, so that every definition is executable by
the kernel. `Number` is embedded as a decimal-digit parser returning `Option`:
inputs outside the well-formed domain of the specification map to `none`.

The DOM is embedded as an explicit `UIState` record (visibility flags, error
text, route summary, and the list of children of the `trainsList` element).
The `fetch` call is embedded as a `FetchResult` value supplied as an argument:
a resolved response (status, status text, parsed JSON body) or a rejected
promise carrying a JavaScript error (name, message).
-/

namespace TrainsFinder

/-! ## JavaScript string primitives, on `List Char` -/

/-- Embedding of JavaScript `String.prototype.split` with a one-character
separator, on the character list: `"a:b".split(':') = ["a", "b"]`,
`"".split(':') = [""]`. -/
def splitOnChar (sep : Char) : List Char → List (List Char)
  | [] => [[]]
  | c :: cs =>
    let rest := splitOnChar sep cs
    if c == sep then [] :: rest
    else
      match rest with
      | [] => [[c]]
      | r :: rs => (c :: r) :: rs

/-- Embedding of `split` on `String`, producing `String` pieces. -/
def jsSplit (s : String) (sep : Char) : List String :=
  (splitOnChar sep s.data).map String.mk

/-- Value of a decimal digit character, `none` on a non-digit. -/
def digitVal (c : Char) : Option Nat :=
  if '0' ≤ c ∧ c ≤ '9' then some (c.toNat - '0'.toNat) else none

/-- Accumulating decimal parse of a digit list; `none` on a non-digit. -/
def digitsVal (acc : Nat) : List Char → Option Nat
  | [] => some acc
  | c :: cs =>
    match digitVal c with
    | some d => digitsVal (acc * 10 + d) cs
    | none => none

/-- Embedding of JavaScript `Number(...)` restricted to nonempty decimal
digit strings, the domain the specification's well-formed "HH:MM" inputs
live in; every other input maps to `none` (in JavaScript, `NaN` or a
value outside the modelled domain). -/
def parseNat? (cs : List Char) : Option Nat :=
  match cs with
  | [] => none
  | _ => digitsVal 0 cs

/-- Whitespace recognizer used by the `trim` embedding. -/
def isSpaceChar (c : Char) : Bool :=
  c == ' ' || c == '\t' || c == '\n' || c == '\r'

/-- Embedding of JavaScript `String.prototype.trim`: drop leading and
trailing whitespace. -/
def jsTrim (s : String) : String :=
  String.mk ((((s.data.dropWhile isSpaceChar).reverse).dropWhile isSpaceChar).reverse)

/-- ASCII uppercasing of one character, as `toUpperCase` acts on the
letters-only station codes of this application. -/
def upperChar (c : Char) : Char :=
  if 'a' ≤ c ∧ c ≤ 'z' then Char.ofNat (c.toNat - 32) else c

/-- Embedding of JavaScript `String.prototype.toUpperCase` on the ASCII
domain of station-code input. -/
def jsToUpper (s : String) : String :=
  String.mk (s.data.map upperChar)

/-- Sublist-of-consecutive-elements test: `charsLE pat l` holds when `pat`
occurs at the very beginning of `l`. -/
def charsLE : List Char → List Char → Bool
  | [], _ => true
  | _ :: _, [] => false
  | a :: as, b :: bs => a == b && charsLE as bs

/-- Occurrence of `pat` as a contiguous run anywhere in `l`. -/
def subList (pat : List Char) : List Char → Bool
  | [] => charsLE pat []
  | c :: rest => charsLE pat (c :: rest) || subList pat rest

/-- Embedding of JavaScript `String.prototype.includes`. -/
def strIncludes (s pat : String) : Bool :=
  subList pat.data s.data

/-! ## Data model (section 3 of the specification) -/

/-- Station reference from the API response. -/
structure StationRef where
  stationCode : String
  stationName : String
deriving DecidableEq

/-- Train identity from the API response. -/
structure TrainRef where
  trainNumber : String
  trainName : String
deriving DecidableEq

/-- One matching trip from the API response. -/
structure TripResult where
  source : StationRef
  destination : StationRef
  train : TrainRef
  departureTime : String
  arrivalTime : String
deriving DecidableEq

/-! ## Pure functions of the source: `calculateDuration`, `formatTime` -/

/-- Embedding of the parse prelude shared by `calculateDuration`:
`departureTime.split(':').map(Number)` destructured into hours and minutes.
Well-formed "HH:MM" input yields `some (hours, minutes)`. -/
def parseClockParts (t : String) : Option (Nat × Nat) :=
  match jsSplit t ':' with
  | [h, m] =>
    match parseNat? h.data, parseNat? m.data with
    | some hv, some mv => some (hv, mv)
    | _, _ => none
  | _ => none

/-- Embedding of `calculateDuration` (src/script.js lines 138-155): total
minutes for each time, add `24 * 60` to the arrival when it is earlier than
the departure, then split the difference into hours and minutes. -/
def calculateDuration (departureTime arrivalTime : String) : Option String :=
  match parseClockParts departureTime, parseClockParts arrivalTime with
  | some (depHours, depMinutes), some (arrHours, arrMinutes) =>
    let depTotalMinutes := depHours * 60 + depMinutes
    let arrTotalMinutes0 := arrHours * 60 + arrMinutes
    let arrTotalMinutes :=
      if arrTotalMinutes0 < depTotalMinutes then arrTotalMinutes0 + 24 * 60
      else arrTotalMinutes0
    let durationMinutes := arrTotalMinutes - depTotalMinutes
    let hours := durationMinutes / 60
    let minutes := durationMinutes % 60
    some (toString hours ++ "h " ++ toString minutes ++ "m")
  | _, _ => none

/-- Embedding of `formatTime` (src/script.js lines 158-163): `hours % 12`
with `0` replaced by `12` (the `|| 12` on the falsy value `0`), period `PM`
exactly when the hour is at least `12`, minutes substring passed through
unchanged. -/
def formatTime (timeString : String) : Option String :=
  match jsSplit timeString ':' with
  | [hours, minutes] =>
    match parseNat? hours.data with
    | some h =>
      let hour12 := if h % 12 = 0 then 12 else h % 12
      let ampm := if 12 ≤ h then "PM" else "AM"
      some (toString hour12 ++ ":" ++ minutes ++ " " ++ ampm)
    | none => none
  | _ => none

/-! ## DOM state and rendering -/

/-- One child of the `trainsList` element: either a train card created by
`createTrainCard` (carrying its animation index, the interpolated duration
badge and formatted times, and the trip it renders), or the no-results panel
markup assigned by `showNoResults`. -/
inductive ListChild where
  | trainCard (animationIndex : Nat)
      (durationBadge departureDisplay arrivalDisplay : Option String)
      (data : TripResult)
  | noResultsPanel (sourceCode destinationCode : String)
deriving DecidableEq

/-- Embedding of `createTrainCard` (src/script.js lines 99-135): a card for
one trip, with animation delay derived from `index` and the interpolated
derived fields. -/
def createTrainCard (trainData : TripResult) (index : Nat) : ListChild :=
  ListChild.trainCard index
    (calculateDuration trainData.departureTime trainData.arrivalTime)
    (formatTime trainData.departureTime)
    (formatTime trainData.arrivalTime)
    trainData

/-- Display-surface state: the DOM elements the script reads and writes. -/
structure UIState where
  loadingVisible : Bool
  errorVisible : Bool
  errorText : String
  resultsVisible : Bool
  routeInfo : String
  trainsList : List ListChild
deriving DecidableEq

/-- Embedding of `showLoading`. -/
def showLoading (s : UIState) : UIState := { s with loadingVisible := true }

/-- Embedding of `hideLoading`. -/
def hideLoading (s : UIState) : UIState := { s with loadingVisible := false }

/-- Embedding of `showError`: sets the error text and reveals the panel. -/
def showError (message : String) (s : UIState) : UIState :=
  { s with errorText := message, errorVisible := true }

/-- Embedding of `hideError`. -/
def hideError (s : UIState) : UIState := { s with errorVisible := false }

/-- Embedding of `hideResults`. -/
def hideResults (s : UIState) : UIState := { s with resultsVisible := false }

/-- Route summary interpolated from the first trip by `displayResults`
(template whitespace elided). -/
def routeSummary (t : TripResult) : String :=
  t.source.stationName ++ " (" ++ t.source.stationCode ++ ") → " ++
    t.destination.stationName ++ " (" ++ t.destination.stationCode ++ ")"

/-- Embedding of `displayResults` (src/script.js lines 72-96): update the
route summary from the first element when the list is nonempty, replace the
card list wholesale (`trainsList.innerHTML = ''` followed by one
`appendChild` per element in order), then show the results container (the
100 ms animation `setTimeout` is elided). The `sourceCode` and
`destinationCode` parameters are accepted and unused, as in the source. -/
def displayResults (trains : List TripResult) (sourceCode destinationCode : String)
    (s : UIState) : UIState :=
  let s1 :=
    match trains with
    | [] => s
    | firstTrain :: _ => { s with routeInfo := routeSummary firstTrain }
  let cards := trains.enum.map (fun (p : Nat × TripResult) => createTrainCard p.2 p.1)
  let s2 := { s1 with trainsList := cards }
  { s2 with resultsVisible := true }

/-- Embedding of `showNoResults` (src/script.js lines 193-205): the card
list becomes the single no-results panel, the route summary becomes
"SRC → DST", and the results container is shown. -/
def showNoResults (sourceCode destinationCode : String) (s : UIState) : UIState :=
  { s with
    trainsList := [ListChild.noResultsPanel sourceCode destinationCode],
    routeInfo := sourceCode ++ " → " ++ destinationCode,
    resultsVisible := true }

/-! ## Fetch outcomes and the search dispatcher -/

/-- A JavaScript error value: its `name` and `message` properties. -/
structure JsError where
  name : String
  message : String
deriving DecidableEq

/-- A resolved `fetch` response: HTTP status, status text, and the parsed
JSON body (`none` embeds a `null` body, for the `!data` test). -/
structure FetchResponse where
  status : Nat
  statusText : String
  body : Option (List TripResult)
deriving DecidableEq

/-- The `response.ok` property: status in the inclusive range 200-299. -/
def responseOk (r : FetchResponse) : Bool :=
  decide (200 ≤ r.status) && decide (r.status ≤ 299)

/-- Outcome of the `fetch` call: resolved with a response, or rejected with
a JavaScript error (a `TypeError` for a network-level transport failure). -/
inductive FetchResult where
  | resolved (response : FetchResponse)
  | rejected (error : JsError)
deriving DecidableEq

/-- The connectivity guidance message of the source's catch handler. -/
def connectivityErrorMessage : String :=
  "Unable to connect to the server. Please check if the API is running on http://localhost:8080"

/-- A network-level transport failure, as surfaced to the script: per the
fetch specification the promise rejects with a `TypeError`, and the
implementations' messages mention `fetch` (for example "Failed to fetch");
this is the class of rejections the source's connectivity branch tests
for. -/
def transportFailure (e : JsError) : Prop :=
  e.name = "TypeError" ∧ strIncludes e.message "fetch" = true

/-- Embedding of the `catch` block of `searchTrains` (src/script.js lines
59-68): hide the loading indicator, then show the distinguished connectivity
message for a `TypeError` mentioning `fetch`, and otherwise the thrown
error's message behind "Search failed: ". -/
def handleSearchError (error : JsError) (s : UIState) : UIState :=
  let s1 := hideLoading s
  if error.name == "TypeError" && strIncludes error.message "fetch" then
    showError connectivityErrorMessage s1
  else
    showError ("Search failed: " ++ error.message) s1

/-- The state after the three statements that precede the `try` block of
`searchTrains`: loading shown, error hidden, results hidden. -/
def preDispatchState (s : UIState) : UIState :=
  hideResults (hideError (showLoading s))

/-- The `Error` thrown by `searchTrains` on a non-ok response:
`new Error` has name "Error" and the interpolated message. -/
def httpStatusError (r : FetchResponse) : JsError :=
  { name := "Error",
    message := "HTTP " ++ toString r.status ++ ": " ++ r.statusText }

/-- Embedding of `searchTrains` (src/script.js lines 35-69) as a state
transformer over the outcome of its single `fetch`: show loading / hide
error / hide results; on rejection run the catch handler; on a non-ok
response throw the HTTP status error into the same catch handler; otherwise
hide loading and branch on `!data || data.length === 0` between
`showNoResults` and `displayResults`. -/
def searchTrains (sourceCode destinationCode : String) (fetchResult : FetchResult)
    (s : UIState) : UIState :=
  let s0 := preDispatchState s
  match fetchResult with
  | FetchResult.rejected error => handleSearchError error s0
  | FetchResult.resolved response =>
    if !(responseOk response) then
      handleSearchError (httpStatusError response) s0
    else
      let s1 := hideLoading s0
      match response.body with
      | none => showNoResults sourceCode destinationCode s1
      | some data =>
        if data.length == 0 then showNoResults sourceCode destinationCode s1
        else displayResults data sourceCode destinationCode s1

/-! ## The form submit handler -/

/-- Embedding of the submit handler (src/script.js lines 15-32). The two
raw field values are trimmed and uppercased; an empty field or equal codes
shows a validation error and returns before `searchTrains`. The second
component of the result is the list of network requests issued, as
(sourceCode, destinationCode) query pairs: empty on the validation paths,
and the single GET of `searchTrains` on the dispatch path. -/
def handleSubmit (sourceRaw destRaw : String) (fetchResult : FetchResult)
    (s : UIState) : UIState × List (String × String) :=
  let sourceCode := jsToUpper (jsTrim sourceRaw)
  let destinationCode := jsToUpper (jsTrim destRaw)
  if sourceCode == "" || destinationCode == "" then
    (showError "Please enter both source and destination station codes." s, [])
  else if sourceCode == destinationCode then
    (showError "Source and destination stations cannot be the same." s, [])
  else
    (searchTrains sourceCode destinationCode fetchResult s,
      [(sourceCode, destinationCode)])

end TrainsFinder

namespace TrainsFinder

/-! ## Theorems -/

/-- Total minutes of the trip as `calculateDuration` computes them is at
most 1439 when both clock readings are in range. -/
theorem durationTotal_le (dh dm ah am : Nat)
    (hdh : dh ≤ 23) (hdm : dm ≤ 59) (hah : ah ≤ 23) (ham : am ≤ 59) :
    (if ah * 60 + am < dh * 60 + dm then ah * 60 + am + 1440 else ah * 60 + am)
      - (dh * 60 + dm) ≤ 1439 := by
  split <;> omega

/-- C1: for well-formed "HH:MM" departure and arrival strings,
`calculateDuration` returns "{hours}h {minutes}m" where the total is the
arrival minutes minus the departure minutes, with 1440 added to the arrival
minutes first when they are smaller, hours the quotient by 60 and minutes
the remainder, with no zero-padding. -/
theorem calculateDuration_formula (dep arr : String) (dh dm ah am : Nat)
    (hdep : parseClockParts dep = some (dh, dm))
    (harr : parseClockParts arr = some (ah, am))
    (hdh : dh ≤ 23) (hdm : dm ≤ 59) (hah : ah ≤ 23) (ham : am ≤ 59) :
    calculateDuration dep arr =
      some (toString
          (((if ah * 60 + am < dh * 60 + dm then ah * 60 + am + 1440 else ah * 60 + am)
              - (dh * 60 + dm)) / 60) ++ "h " ++
        toString
          (((if ah * 60 + am < dh * 60 + dm then ah * 60 + am + 1440 else ah * 60 + am)
              - (dh * 60 + dm)) % 60) ++ "m") := by
  simp [calculateDuration, hdep, harr]

/-- Witness for C1 at the specification's two examples: the midnight
rollover "23:30" to "00:15" gives "0h 45m", and "09:15" to "11:45" gives
"2h 30m". -/
theorem calculateDuration_formula_witness :
    calculateDuration "23:30" "00:15" = some "0h 45m" ∧
    calculateDuration "09:15" "11:45" = some "2h 30m" := by
  constructor
  · exact (calculateDuration_formula "23:30" "00:15" 23 30 0 15 (by decide) (by decide)
      (by decide) (by decide) (by decide) (by decide)).trans (by decide)
  · exact (calculateDuration_formula "09:15" "11:45" 9 15 11 45 (by decide) (by decide)
      (by decide) (by decide) (by decide) (by decide)).trans (by decide)

/-- C9: for well-formed "HH:MM" inputs the duration is bounded: the total
minutes value is at most 1439, so the rendered hours figure is in [0,23]
and the minutes figure is in [0,59]; "24h 0m" or more is never produced. -/
theorem calculateDuration_bounded (dep arr : String) (dh dm ah am : Nat)
    (hdep : parseClockParts dep = some (dh, dm))
    (harr : parseClockParts arr = some (ah, am))
    (hdh : dh ≤ 23) (hdm : dm ≤ 59) (hah : ah ≤ 23) (ham : am ≤ 59) :
    ∃ total hrs mins, total ≤ 1439 ∧ hrs = total / 60 ∧ mins = total % 60 ∧
      hrs ≤ 23 ∧ mins ≤ 59 ∧
      calculateDuration dep arr = some (toString hrs ++ "h " ++ toString mins ++ "m") := by
  have htot := durationTotal_le dh dm ah am hdh hdm hah ham
  refine ⟨(if ah * 60 + am < dh * 60 + dm then ah * 60 + am + 1440 else ah * 60 + am)
      - (dh * 60 + dm), _, _, htot, rfl, rfl, by omega, by omega, ?_⟩
  simp [calculateDuration, hdep, harr]

/-- Witness for C9 at the rollover example "23:30" to "00:15". -/
theorem calculateDuration_bounded_witness :
    ∃ total hrs mins, total ≤ 1439 ∧ hrs = total / 60 ∧ mins = total % 60 ∧
      hrs ≤ 23 ∧ mins ≤ 59 ∧
      calculateDuration "23:30" "00:15" =
        some (toString hrs ++ "h " ++ toString mins ++ "m") :=
  calculateDuration_bounded "23:30" "00:15" 23 30 0 15 (by decide) (by decide)
    (by decide) (by decide) (by decide) (by decide)

/-- C2: for a well-formed 24-hour "HH:MM" string, `formatTime` returns
"H:MM AM/PM" where H is the hour mod 12 with 0 replaced by 12, the period
is "PM" exactly when the hour is at least 12, and the minutes substring is
passed through unchanged. -/
theorem formatTime_formula (s hs ms : String) (h : Nat)
    (hsplit : jsSplit s ':' = [hs, ms])
    (hparse : parseNat? hs.data = some h) (hle : h ≤ 23) :
    formatTime s =
      some (toString (if h % 12 = 0 then 12 else h % 12) ++ ":" ++ ms ++ " " ++
        (if 12 ≤ h then "PM" else "AM")) := by
  simp [formatTime, hsplit, hparse]

/-- Witness for C2 at the specification's four examples. -/
theorem formatTime_formula_witness :
    formatTime "00:05" = some "12:05 AM" ∧ formatTime "12:00" = some "12:00 PM" ∧
    formatTime "23:59" = some "11:59 PM" ∧ formatTime "01:00" = some "1:00 AM" := by
  refine ⟨?_, ?_, ?_, ?_⟩
  · exact (formatTime_formula "00:05" "00" "05" 0 (by decide) (by decide)
      (by decide)).trans (by decide)
  · exact (formatTime_formula "12:00" "12" "00" 12 (by decide) (by decide)
      (by decide)).trans (by decide)
  · exact (formatTime_formula "23:59" "23" "59" 23 (by decide) (by decide)
      (by decide)).trans (by decide)
  · exact (formatTime_formula "01:00" "01" "00" 1 (by decide) (by decide)
      (by decide)).trans (by decide)

end TrainsFinder

namespace TrainsFinder

/-- Projection helper: the catch handler always leaves the loading
indicator hidden. -/
theorem handleSearchError_loadingVisible (e : JsError) (s : UIState) :
    (handleSearchError e s).loadingVisible = false := by
  unfold handleSearchError
  split <;> rfl

/-- Projection helper: `displayResults` does not touch the loading
indicator. -/
theorem displayResults_loadingVisible (t : List TripResult) (a b : String) (s : UIState) :
    (displayResults t a b s).loadingVisible = s.loadingVisible := by
  unfold displayResults
  cases t <;> rfl

/-- C7: the loading indicator is shown before dispatch (it is visible in
the state reached just before the fetch) and is hidden in the final state
of every completion path of `searchTrains` — results, empty, HTTP error,
or network failure. -/
theorem searchTrains_loading (a b : String) (f : FetchResult) (s : UIState) :
    (preDispatchState s).loadingVisible = true ∧
    (searchTrains a b f s).loadingVisible = false := by
  refine ⟨rfl, ?_⟩
  unfold searchTrains
  rcases f with r | e
  · dsimp only
    by_cases hok : responseOk r
    · rcases hbody : r.body with _ | data
      · simp [hok, hbody, showNoResults, hideLoading]
      · by_cases hlen : data.length == 0
        · simp [hok, hbody, hlen, showNoResults, hideLoading]
        · simp [hok, hbody, hlen, displayResults_loadingVisible, hideLoading]
    · simp [hok, handleSearchError_loadingVisible]
  · exact handleSearchError_loadingVisible _ _

/-- C8: rendering is idempotent per call: after calling `displayResults`
with one sequence and then with a second, the display surface holds exactly
the second sequence's cards, one card per element in input order; a single
call likewise replaces whatever was present wholesale. -/
theorem displayResults_rerender (seq1 seq2 : List TripResult)
    (a1 b1 a2 b2 : String) (s : UIState) :
    (displayResults seq2 a2 b2 (displayResults seq1 a1 b1 s)).trainsList =
      seq2.enum.map (fun (p : Nat × TripResult) => createTrainCard p.2 p.1) ∧
    (displayResults seq2 a2 b2 s).trainsList =
      seq2.enum.map (fun (p : Nat × TripResult) => createTrainCard p.2 p.1) ∧
    (displayResults seq2 a2 b2 s).trainsList.length = seq2.length := by
  refine ⟨?_, ?_, ?_⟩ <;> unfold displayResults <;> cases seq2 <;>
    simp [List.enum, Function.comp]

/-- C10: `displayResults` on the empty sequence leaves the route summary
unchanged, clears the card list, shows the (empty) results container and
changes nothing else; in the embedding the call is total, so it cannot
throw. -/
theorem displayResults_empty (a b : String) (s : UIState) :
    displayResults [] a b s = { s with trainsList := [], resultsVisible := true } ∧
    (displayResults [] a b s).routeInfo = s.routeInfo := by
  constructor <;> rfl

end TrainsFinder

namespace TrainsFinder

/-- Helper: the path `searchTrains` takes on an ok response whose parsed
body is the empty array is exactly `showNoResults`. -/
theorem searchTrains_resolved_ok_empty (a b : String) (r : FetchResponse)
    (s : UIState) (hok : responseOk r = true) (hbody : r.body = some []) :
    searchTrains a b (FetchResult.resolved r) s =
      showNoResults a b (hideLoading (preDispatchState s)) := by
  unfold searchTrains
  simp [hok, hbody]

/-- C4: a successful response with an empty body is mapped to the Empty
state: the display surface holds exactly the no-results panel — no train
card — and the results container is shown; the embedding of this path is
total and never inspects a first element of the body. -/
theorem searchTrains_empty_response (a b : String) (r : FetchResponse) (s : UIState)
    (hok : responseOk r = true) (hbody : r.body = some []) :
    searchTrains a b (FetchResult.resolved r) s =
      showNoResults a b (hideLoading (preDispatchState s)) ∧
    (searchTrains a b (FetchResult.resolved r) s).trainsList =
      [ListChild.noResultsPanel a b] ∧
    (searchTrains a b (FetchResult.resolved r) s).resultsVisible = true ∧
    ∀ c ∈ (searchTrains a b (FetchResult.resolved r) s).trainsList,
      ∀ (t : TripResult) (i : Nat), c ≠ createTrainCard t i := by
  have h1 := searchTrains_resolved_ok_empty a b r s hok hbody
  refine ⟨h1, ?_, ?_, ?_⟩ <;> rw [h1] <;> simp [showNoResults, createTrainCard]

/-- Witness for C4: a concrete 200 response with body `[]` renders the
no-results panel. -/
theorem searchTrains_empty_response_witness :
    (searchTrains "NDLS" "HWH" (FetchResult.resolved ⟨200, "OK", some []⟩)
        ⟨false, false, "", false, "", []⟩).trainsList =
      [ListChild.noResultsPanel "NDLS" "HWH"] :=
  (searchTrains_empty_response "NDLS" "HWH" ⟨200, "OK", some []⟩
    ⟨false, false, "", false, "", []⟩ (by decide) rfl).2.1

/-- C5: a resolved response with a non-2xx status ends with the error panel
visible and an error text of the form "Search failed: HTTP <status>:
<statusText>", which contains the numeric status and the status text
verbatim. -/
theorem searchTrains_http_error (a b : String) (r : FetchResponse) (s : UIState)
    (hok : responseOk r = false) :
    (searchTrains a b (FetchResult.resolved r) s).errorVisible = true ∧
    (searchTrains a b (FetchResult.resolved r) s).errorText =
      "Search failed: " ++ ("HTTP " ++ toString r.status ++ ": " ++ r.statusText) ∧
    (∃ pre post, (searchTrains a b (FetchResult.resolved r) s).errorText =
      pre ++ toString r.status ++ post) ∧
    (∃ pre, (searchTrains a b (FetchResult.resolved r) s).errorText =
      pre ++ r.statusText) := by
  have h1 : searchTrains a b (FetchResult.resolved r) s =
      showError ("Search failed: " ++ ("HTTP " ++ toString r.status ++ ": " ++ r.statusText))
        (hideLoading (preDispatchState s)) := by
    unfold searchTrains handleSearchError httpStatusError
    simp [hok, strIncludes]
  refine ⟨by rw [h1]; rfl, by rw [h1]; rfl, ?_, ?_⟩
  · refine ⟨"Search failed: " ++ "HTTP ", ": " ++ r.statusText, ?_⟩
    rw [h1]
    show "Search failed: " ++ ("HTTP " ++ toString r.status ++ ": " ++ r.statusText) = _
    apply String.ext
    simp only [String.data_append, List.append_assoc]
  · refine ⟨"Search failed: " ++ ("HTTP " ++ toString r.status ++ ": "), ?_⟩
    rw [h1]
    show "Search failed: " ++ ("HTTP " ++ toString r.status ++ ": " ++ r.statusText) = _
    apply String.ext
    simp only [String.data_append, List.append_assoc]

/-- Witness for C5 at a concrete 404 response. -/
theorem searchTrains_http_error_witness :
    (searchTrains "NDLS" "HWH" (FetchResult.resolved ⟨404, "Not Found", none⟩)
        ⟨false, false, "", false, "", []⟩).errorVisible = true ∧
    (searchTrains "NDLS" "HWH" (FetchResult.resolved ⟨404, "Not Found", none⟩)
        ⟨false, false, "", false, "", []⟩).errorText =
      "Search failed: " ++ ("HTTP " ++ toString (404 : Nat) ++ ": " ++ "Not Found") ∧
    (∃ pre post,
      (searchTrains "NDLS" "HWH" (FetchResult.resolved ⟨404, "Not Found", none⟩)
        ⟨false, false, "", false, "", []⟩).errorText =
        pre ++ toString (404 : Nat) ++ post) ∧
    (∃ pre,
      (searchTrains "NDLS" "HWH" (FetchResult.resolved ⟨404, "Not Found", none⟩)
        ⟨false, false, "", false, "", []⟩).errorText = pre ++ "Not Found") :=
  searchTrains_http_error "NDLS" "HWH" ⟨404, "Not Found", none⟩
    ⟨false, false, "", false, "", []⟩ (by decide)

/-- Helper: the connectivity message never coincides with a
"Search failed: ..." message; they differ at the first character. -/
theorem connectivity_ne_search_failed (m : String) :
    connectivityErrorMessage ≠ "Search failed: " ++ m := by
  intro h
  have h2 : connectivityErrorMessage.front = ("Search failed: " ++ m).front := by rw [h]
  have h3 : connectivityErrorMessage.front = 'U' := rfl
  have h4 : ("Search failed: " ++ m).front = 'S' := rfl
  rw [h3, h4] at h2
  exact absurd h2 (by decide)

/-- C6: a transport-level fetch rejection ends with the error panel showing
the distinguished connectivity message (advising that the API server may
not be running), and that message differs from the message produced for
every HTTP-status error. -/
theorem searchTrains_network_failure (a b : String) (e : JsError) (s : UIState)
    (he : transportFailure e) :
    (searchTrains a b (FetchResult.rejected e) s).errorVisible = true ∧
    (searchTrains a b (FetchResult.rejected e) s).errorText = connectivityErrorMessage ∧
    ∀ (a2 b2 : String) (r : FetchResponse) (s2 : UIState), responseOk r = false →
      (searchTrains a b (FetchResult.rejected e) s).errorText ≠
        (searchTrains a2 b2 (FetchResult.resolved r) s2).errorText := by
  have h1 : searchTrains a b (FetchResult.rejected e) s =
      showError connectivityErrorMessage (hideLoading (preDispatchState s)) := by
    unfold searchTrains handleSearchError
    simp [he.1, he.2]
  refine ⟨by rw [h1]; rfl, by rw [h1]; rfl, ?_⟩
  intro a2 b2 r s2 hok
  have h5 : searchTrains a2 b2 (FetchResult.resolved r) s2 =
      showError ("Search failed: " ++ ("HTTP " ++ toString r.status ++ ": " ++ r.statusText))
        (hideLoading (preDispatchState s2)) := by
    unfold searchTrains handleSearchError httpStatusError
    simp [hok, strIncludes]
  rw [h1, h5]
  exact connectivity_ne_search_failed _

/-- Witness for C6 at the Chrome-style rejection "Failed to fetch". -/
theorem searchTrains_network_failure_witness :
    (searchTrains "NDLS" "HWH"
        (FetchResult.rejected ⟨"TypeError", "Failed to fetch"⟩)
        ⟨false, false, "", false, "", []⟩).errorVisible = true ∧
    (searchTrains "NDLS" "HWH"
        (FetchResult.rejected ⟨"TypeError", "Failed to fetch"⟩)
        ⟨false, false, "", false, "", []⟩).errorText = connectivityErrorMessage ∧
    ∀ (a2 b2 : String) (r : FetchResponse) (s2 : UIState), responseOk r = false →
      (searchTrains "NDLS" "HWH"
          (FetchResult.rejected ⟨"TypeError", "Failed to fetch"⟩)
          ⟨false, false, "", false, "", []⟩).errorText ≠
        (searchTrains a2 b2 (FetchResult.resolved r) s2).errorText :=
  searchTrains_network_failure "NDLS" "HWH" ⟨"TypeError", "Failed to fetch"⟩
    ⟨false, false, "", false, "", []⟩ ⟨rfl, by decide⟩

end TrainsFinder

namespace TrainsFinder

/-- C3: when either normalized (trimmed, uppercased) station code is empty
or the two are equal, the submit handler issues no network request and
shows a validation message; the search function is dispatched — with
exactly one GET — only when both normalized codes are nonempty and
distinct. -/
theorem handleSubmit_validation (sourceRaw destRaw : String) (f : FetchResult)
    (s : UIState) :
    ((jsToUpper (jsTrim sourceRaw) = "" ∨ jsToUpper (jsTrim destRaw) = "" ∨
        jsToUpper (jsTrim sourceRaw) = jsToUpper (jsTrim destRaw)) →
      (handleSubmit sourceRaw destRaw f s).2 = [] ∧
      (handleSubmit sourceRaw destRaw f s).1.errorVisible = true ∧
      ((handleSubmit sourceRaw destRaw f s).1.errorText =
          "Please enter both source and destination station codes." ∨
        (handleSubmit sourceRaw destRaw f s).1.errorText =
          "Source and destination stations cannot be the same.")) ∧
    ((handleSubmit sourceRaw destRaw f s).2 ≠ [] →
      jsToUpper (jsTrim sourceRaw) ≠ "" ∧ jsToUpper (jsTrim destRaw) ≠ "" ∧
      jsToUpper (jsTrim sourceRaw) ≠ jsToUpper (jsTrim destRaw) ∧
      (handleSubmit sourceRaw destRaw f s).2 =
        [(jsToUpper (jsTrim sourceRaw), jsToUpper (jsTrim destRaw))] ∧
      (handleSubmit sourceRaw destRaw f s).1 =
        searchTrains (jsToUpper (jsTrim sourceRaw)) (jsToUpper (jsTrim destRaw)) f s) := by
  by_cases h1 : jsToUpper (jsTrim sourceRaw) = "" <;>
    by_cases h2 : jsToUpper (jsTrim destRaw) = "" <;>
      by_cases h3 : jsToUpper (jsTrim sourceRaw) = jsToUpper (jsTrim destRaw) <;>
        simp [handleSubmit, h1, h2, h3, showError]

/-- Witness for C3: equal normalized codes ("ndls" and " ndls " both
normalize to "NDLS") issue no request and show a validation message. -/
theorem handleSubmit_validation_witness :
    (handleSubmit "ndls" " ndls "
        (FetchResult.rejected ⟨"TypeError", "Failed to fetch"⟩)
        ⟨false, false, "", false, "", []⟩).2 = [] ∧
    (handleSubmit "ndls" " ndls "
        (FetchResult.rejected ⟨"TypeError", "Failed to fetch"⟩)
        ⟨false, false, "", false, "", []⟩).1.errorVisible = true ∧
    ((handleSubmit "ndls" " ndls "
        (FetchResult.rejected ⟨"TypeError", "Failed to fetch"⟩)
        ⟨false, false, "", false, "", []⟩).1.errorText =
      "Please enter both source and destination station codes." ∨
     (handleSubmit "ndls" " ndls "
        (FetchResult.rejected ⟨"TypeError", "Failed to fetch"⟩)
        ⟨false, false, "", false, "", []⟩).1.errorText =
      "Source and destination stations cannot be the same.") :=
  (handleSubmit_validation "ndls" " ndls "
      (FetchResult.rejected ⟨"TypeError", "Failed to fetch"⟩)
      ⟨false, false, "", false, "", []⟩).1
    (Or.inr (Or.inr (by decide)))

end TrainsFinder
